import Mathlib

/-!
Verification of the Monte Carlo projection engine of the fantasy-GM backend
(src/backend/app/ml/monte_carlo.py, src/backend/app/workers/simulation_tasks.py,
src/backend/app/services/redis_service.py, src/backend/app/core/exceptions.py).

Shallow embedding conventions:
* Python floats are modelled as exact rationals where the code only adds,
  multiplies and divides, and as real numbers once a square root enters
  (numpy std and the confidence-interval margin).  NaN (which numpy produces
  for the mean and std of an empty array, with a warning and no exception)
  is modelled by Option, with none standing for NaN.
* The numpy Generator is modelled as a stream of standard-normal draws
  (a function from draw index to the drawn value) plus a position; a draw
  normal(mean, std) at position k yields mean + std * stream k.  The stream
  is fully determined by the seed, which is all the claims need.
* multiprocessing.Pool.starmap has to pickle the bound method, hence the
  whole simulator object, once per submitted chunk; the simulator's
  _process_pool attribute (a multiprocessing.Pool) makes that pickling fail
  unconditionally, and for non-empty lineups the preprocessing call is
  already missing its required sport_type argument, so the fresh path of a
  simulation call always aborts and is rethrown as SimulationError 3011 by
  the blanket handler.  The sampling definitions below embed the body of
  _simulate_single_lineup as the source writes it (each chunk reading a
  copy of the generator stream); the facade model routes its fresh path
  into the error the program actually produces.
* Exceptions are modelled with Except; the application error taxonomy
  (app/core/exceptions.py) is the inductive AppError below.
-/

/-- A player's scoring distribution as used by the sampler: the code computes
mean_points = np.mean of the player's historical points and
std_points = np.std of them (monte_carlo.py lines 219-221) once per player
per chunk; the claims quantify over these distributions, so we take the
(mean, std) pair as the preprocessed player datum. -/
structure PlayerDist where
  mean : ℚ
  std : ℚ
deriving DecidableEq, Repr

/-- Application error taxonomy from app/core/exceptions.py: SimulationError
(raised throughout monte_carlo.py), IntegrationError (raised by
RedisService.get and RedisService.set after retries are exhausted), and
ValidationError (defined in exceptions.py, which monte_carlo.py never
imports). -/
inductive AppError where
  | simulationError (code : ℕ) (msg : String)
  | integrationError (msg : String)
  | validationError (code : ℕ) (msg : String)
deriving DecidableEq, Repr

/-- np.mean: the arithmetic mean of a list of floats; NaN (none) on the
empty list (numpy emits a RuntimeWarning and returns nan, it does not
raise). -/
def npMean (l : List ℚ) : Option ℚ :=
  if l.isEmpty then none else some (l.sum / (l.length : ℚ))

/-- The population variance used by np.std: mean of squared deviations from
mu, i.e. division by n (numpy's default ddof = 0). Only meaningful for
nonempty l (callers pair it with npMean). -/
def popVar (l : List ℚ) (mu : ℚ) : ℚ :=
  (l.map (fun x => (x - mu) ^ 2)).sum / (l.length : ℚ)

/-- np.std: square root of the population variance; NaN (none) on the empty
list, exactly as np.mean. -/
noncomputable def npStd (l : List ℚ) : Option ℝ :=
  (npMean l).map (fun mu => Real.sqrt (popVar l mu))

/-- The sample standard deviation as the spec's words define it (divide the
sum of squared deviations by n - 1 when n is larger than 1, and 0 when
n = 1).  Modelled from the spec for comparison with the code's npStd; the
code never computes this quantity. -/
noncomputable def sampleStdSpec (l : List ℚ) : ℝ :=
  match npMean l with
  | none => 0
  | some mu =>
    if l.length ≤ 1 then 0
    else Real.sqrt (((l.map (fun x => (x - mu) ^ 2)).sum / ((l.length : ℚ) - 1) : ℚ))

/-- monte_carlo.py lines 124-126: chunk_size = n_simulations //
MAX_PARALLEL_PROCESSES; simulation_chunks = [chunk_size] *
MAX_PARALLEL_PROCESSES.  The worker count w is MAX_PARALLEL_PROCESSES =
min(4, cpu_count()) at runtime; we keep it as a parameter. -/
def simulationChunks (n w : ℕ) : List ℕ :=
  List.replicate w (n / w)

/-- One trial of _simulate_single_lineup (lines 216-226): for trial i, draw
one normal sample per player in order, clamp each to max(0, sample), and sum.
The chunk's generator copy consumes one draw per player per trial, so trial
i's draw for the p-th player is stream entry i * numPlayers + p. -/
def trialScore (g : ℕ → ℚ) (ps : List PlayerDist) (i : ℕ) : ℚ :=
  (ps.enum.map (fun pd => max 0 (pd.2.mean + pd.2.std * g (i * ps.length + pd.1)))).sum

/-- _simulate_single_lineup (lines 201-227): the array of n trial outcomes
produced by one chunk, sampling from the generator stream g (the pickled
copy of the parent generator). -/
def simulate_single_lineup (g : ℕ → ℚ) (ps : List PlayerDist) (n : ℕ) : List ℚ :=
  (List.range n).map (trialScore g ps)

/-- Lines 128-131: _parallel_simulate runs _simulate_single_lineup once per
chunk (starmap keeps chunk order) and np.concatenate merges the per-chunk
arrays.  Every chunk receives an identical pickled copy of the simulator,
hence the same stream g. -/
def combinedResults (g : ℕ → ℚ) (ps : List PlayerDist) (n w : ℕ) : List ℚ :=
  ((simulationChunks n w).map (fun c => simulate_single_lineup g ps c)).flatten

/-- How the second POSITIONAL argument of a call to
calculate_confidence_interval looks to the validate_input decorator
(monte_carlo.py lines 55-66): the decorator raises SimulationError 3010
whenever there are at least two positional arguments and args[1] is not a
list or numpy array.  none models a call with a single positional argument
(e.g. the repository test calls with confidence_level as a keyword). -/
inductive SecondArg where
  | listLike
  | floatArg
deriving DecidableEq, Repr

/-- The arithmetic body of calculate_confidence_interval (lines 251-257):
mean = np.mean(results); std_error = np.std(results) / sqrt(len(results));
margin = z * std_error where z = norm.ppf((1 + confidence) / 2); the
returned pair is (mean - margin, mean + margin).  z is kept as a real
parameter; for the default confidence 0.95 the code's z = norm.ppf(0.975)
is a fixed positive real (about 1.96).  On the empty array np.mean and
np.std are NaN and every later operation propagates NaN, so the code
returns the pair (NaN, NaN) without raising. -/
noncomputable def ciValue (l : List ℚ) (z : ℝ) : Option ℝ × Option ℝ :=
  match npMean l with
  | none => (none, none)
  | some mu =>
    let se : ℝ := Real.sqrt (popVar l mu) / Real.sqrt (l.length : ℝ)
    (some ((mu : ℝ) - z * se), some ((mu : ℝ) + z * se))

/-- calculate_confidence_interval as decorated by validate_input: with at
least two positional arguments whose second is not list-like the decorator
raises SimulationError 3010 before the body runs; otherwise the body
computes ciValue (its try block can only rethrow as 3014, and none of its
operations raises on any input, the empty array included). -/
noncomputable def calculate_confidence_interval
    (posArg2 : Option SecondArg) (l : List ℚ) (z : ℝ) :
    Except AppError (Option ℝ × Option ℝ) :=
  if posArg2 = some SecondArg.floatArg then
    Except.error (AppError.simulationError 3010 "Invalid input data type")
  else
    Except.ok (ciValue l z)

/-- The result dictionary built by simulate_lineup_performance
(lines 145-155): expected_points and standard_deviation are np.mean and
np.std of the combined outcome array (lines 136-137), the interval bounds
come from calculate_confidence_interval, the level is the constant 0.95,
and simulations_run is set to the requested n_simulations.  The timestamp
field is wall-clock metadata and is not modelled. -/
structure SimulationResult where
  expected_points : Option ℚ
  standard_deviation : Option ℝ
  ci_lower : Option ℝ
  ci_upper : Option ℝ
  ci_level : ℚ
  simulations_run : ℕ

/-- Constructor for the result dictionary of lines 145-155. -/
noncomputable def mkLineupResult (combined : List ℚ) (lo hi : Option ℝ) (n : ℕ) :
    SimulationResult :=
  { expected_points := npMean combined
    standard_deviation := npStd combined
    ci_lower := lo
    ci_upper := hi
    ci_level := 19 / 20
    simulations_run := n }

/-- State and failure switches of the Redis cache backend as seen through
RedisService (redis_service.py): get returns the stored value for the key
(None when absent) or, when the backend fails, raises IntegrationError
after its retries are exhausted; set either stores the serialized value
under the key or raises IntegrationError. -/
structure CacheOps where
  store : String → Option SimulationResult
  getFails : Bool
  setFails : Bool

/-- A cache write through RedisService.set. -/
def cacheWrite (c : CacheOps) (key : String) (v : SimulationResult) : CacheOps :=
  { c with store := fun k => if k = key then some v else c.store k }

/-- monte_carlo.py line 109: the simulator's internal cache key,
SIMULATION_CACHE_PREFIX + "lineup:" + "_".join(player_ids) - the ids are
joined in caller order, without sorting, and neither the trial count nor
anything else enters the key. -/
def lineupCacheKey (ids : List String) : String :=
  "monte_carlo_sim:" ++ "lineup:" ++ String.intercalate "_" ids

/-- simulate_lineup_performance (monte_carlo.py lines 92-173).  Parameters:
c the cache backend, db the preprocessed player distributions (the
preprocessor is abstracted as a total map; any failure it could raise would
be caught by the same blanket except handler modelled below), g the parent
generator stream at its current position, w = MAX_PARALLEL_PROCESSES, z the
normal quantile used by the estimator.  Control flow follows the source:
the cache get sits OUTSIDE the try block, so a backend failure there
escapes as IntegrationError; inside the try block the combined outcomes and
their mean and std are computed (lines 131-137), then
calculate_confidence_interval is called with the confidence level as a
second POSITIONAL argument (lines 140-143), whose validate_input decorator
therefore raises SimulationError 3010; the blanket except handler rethrows
any exception as SimulationError 3011, so the fresh path never reaches the
result construction or the cache write that follow it. -/
noncomputable def simulate_lineup_performance
    (c : CacheOps) (db : String → PlayerDist) (g : ℕ → ℚ) (w : ℕ) (z : ℝ)
    (cacheEnabled forceRefresh : Bool) (player_ids : List String) (n : ℕ) :
    Except AppError SimulationResult × CacheOps :=
  let key := lineupCacheKey player_ids
  let fresh : Except AppError SimulationResult × CacheOps :=
    let dists := player_ids.map db
    let combined := combinedResults g dists n w
    match calculate_confidence_interval (some SecondArg.floatArg) combined z with
    | Except.error _ =>
      (Except.error (AppError.simulationError 3011 "Failed to simulate lineup performance"), c)
    | Except.ok (lo, hi) =>
      let result := mkLineupResult combined lo hi n
      if cacheEnabled then
        if c.setFails then
          (Except.error (AppError.simulationError 3011 "Failed to simulate lineup performance"), c)
        else (Except.ok result, cacheWrite c key result)
      else (Except.ok result, c)
  if cacheEnabled && !forceRefresh then
    if c.getFails then
      (Except.error (AppError.integrationError "Redis get operation failed"), c)
    else
      match c.store key with
      | some v => (Except.ok v, c)
      | none => fresh
  else fresh

/-- simulation_tasks.py lines 24-29: generate_cache_key stringifies the
arguments, SORTS them, joins with underscores, and md5-hashes the joined
string; the key is CACHE_KEY_PREFIX + prefix + ":" + hexdigest.  The hash
is an arbitrary string function parameter (only key equality matters to the
claims, and equal inputs give equal digests for any function).  Python's
sorted on strings is the lexicographic order on code points, which is
String's linear order. -/
def generate_cache_key (hash : String → String) (pre : String) (args : List String) : String :=
  "sim_task:" ++ pre ++ ":" ++
    hash (String.intercalate "_" (args.insertionSort (fun a b => a ≤ b)))

/-- simulate_lineup_task (simulation_tasks.py lines 31-92): worker-level
cache check on the sorted-hashed key, then the simulator call (created with
seed 42; cache_enabled defaults to true and force_refresh is not forwarded,
so the nested facade performs its own cache check on its own key), then a
worker-level cache write and the cached flag added to the response.  The
task body has no exception handler: simulator and backend errors propagate
to the caller.  The Bool paired with the result is the cached flag. -/
noncomputable def simulate_lineup_task
    (hash : String → String) (c : CacheOps) (db : String → PlayerDist)
    (g : ℕ → ℚ) (w : ℕ) (z : ℝ) (player_ids : List String) (n : ℕ)
    (forceRefresh : Bool) :
    Except AppError (SimulationResult × Bool) × CacheOps :=
  let key := generate_cache_key hash "lineup" player_ids
  let fresh : Except AppError (SimulationResult × Bool) × CacheOps :=
    match simulate_lineup_performance c db g w z true false player_ids n with
    | (Except.error e, c1) => (Except.error e, c1)
    | (Except.ok results, c1) =>
      if c1.setFails then
        (Except.error (AppError.integrationError "Redis set operation failed"), c1)
      else (Except.ok (results, false), cacheWrite c1 key results)
  if !forceRefresh then
    if c.getFails then
      (Except.error (AppError.integrationError "Redis get operation failed"), c)
    else
      match c.store key with
      | some v => (Except.ok (v, true), c)
      | none => fresh
  else fresh

/-- An empty, healthy cache backend (concrete instance for counterexamples
and witnesses). -/
def emptyCache : CacheOps :=
  { store := fun _ => none, getFails := false, setFails := false }

/-- A concrete preprocessed-player environment. -/
def dbConst : String → PlayerDist := fun _ => { mean := 10, std := 3 }

/-- A concrete generator stream. -/
def gConst : ℕ → ℚ := fun _ => 0

/-- A generator stream whose every standard-normal draw is -1 (concrete
instance exercising the clamp). -/
def gNeg : ℕ → ℚ := fun _ => -1

/-- A one-player lineup whose distribution makes every draw of gNeg sample
negative before clamping. -/
def psOne : List PlayerDist := [{ mean := 1, std := 5 }]

lemma npMean_of_ne_nil (l : List ℚ) (h : l ≠ []) :
    npMean l = some (l.sum / (l.length : ℚ)) := by
  simp [npMean, h]

lemma popVar_nonneg (l : List ℚ) (mu : ℚ) : 0 ≤ popVar l mu := by
  refine div_nonneg (List.sum_nonneg ?_) (by positivity)
  intro x hx
  obtain ⟨y, _, rfl⟩ := List.mem_map.mp hx
  positivity

lemma simulate_single_lineup_length (g : ℕ → ℚ) (ps : List PlayerDist) (n : ℕ) :
    (simulate_single_lineup g ps n).length = n := by
  simp [simulate_single_lineup]

lemma combinedResults_length (g : ℕ → ℚ) (ps : List PlayerDist) (n w : ℕ) :
    (combinedResults g ps n w).length = w * (n / w) := by
  simp [combinedResults, simulationChunks, simulate_single_lineup_length,
    List.map_replicate, List.sum_replicate, smul_eq_mul]

lemma trialScore_nonneg (g : ℕ → ℚ) (ps : List PlayerDist) (i : ℕ) :
    0 ≤ trialScore g ps i := by
  refine List.sum_nonneg ?_
  intro x hx
  obtain ⟨pd, _, rfl⟩ := List.mem_map.mp hx
  exact le_max_left 0 _

lemma combinedResults_nonneg (g : ℕ → ℚ) (ps : List PlayerDist) (n w : ℕ) :
    ∀ x ∈ combinedResults g ps n w, 0 ≤ x := by
  intro x hx
  obtain ⟨chunkArr, hchunk, hxmem⟩ := List.mem_flatten.mp hx
  obtain ⟨csize, _, rfl⟩ := List.mem_map.mp hchunk
  obtain ⟨i, _, rfl⟩ := List.mem_map.mp hxmem
  exact trialScore_nonneg g ps i

/-- C1: the claim says the requested trial count is split into approximately
equal chunks with the remainder given to the first chunks, summing to
exactly n_simulations, and that simulations_run equals the number of
aggregated outcomes.  Counterexample at n_simulations = 10 and w = 4
workers: the code's chunk list is four copies of 10 // 4 = 2, which sums to
8, not 10; the aggregated outcome array also has 8 entries while the result
dictionary reports simulations_run = 10. -/
theorem chunk_split_counterexample :
    (simulationChunks 10 4).sum = 8 ∧
    (combinedResults gConst psOne 10 4).length = 8 ∧
    (mkLineupResult (combinedResults gConst psOne 10 4) none none 10).simulations_run = 10 ∧
    (8 : ℕ) ≠ 10 := by
  refine ⟨by decide, ?_, rfl, by decide⟩
  rw [combinedResults_length]

/-- C1 amended: the code gives every one of the w chunks the same size
n // w (the remainder is silently dropped, not distributed), so the chunk
sizes sum to w * (n // w), which equals the requested n_simulations exactly
when w divides n; the aggregated outcome array has that many entries, while
the simulations_run field of the result dictionary is always set to the
requested n_simulations. -/
theorem chunk_split_amended (n w : ℕ) (g : ℕ → ℚ) (ps : List PlayerDist) :
    (simulationChunks n w).sum = w * (n / w) ∧
    (combinedResults g ps n w).length = (simulationChunks n w).sum ∧
    ((simulationChunks n w).sum = n ↔ w ∣ n) ∧
    ∀ lo hi, (mkLineupResult (combinedResults g ps n w) lo hi n).simulations_run = n := by
  have hsum : (simulationChunks n w).sum = w * (n / w) := by
    simp [simulationChunks, List.sum_replicate, smul_eq_mul]
  refine ⟨hsum, by rw [combinedResults_length, hsum], ?_, fun _ _ => rfl⟩
  rw [hsum]
  constructor
  · intro h
    exact ⟨n / w, h.symm⟩
  · intro h
    exact Nat.mul_div_cancel' h

/-- C5: the claim says two repeated simulate_lineup_performance calls with
the same seed, the same player distributions and the same trial count,
cache bypassed, both return bit-identical expected_points and
standard_deviation.  In the code no call ever returns those fields: every
fresh computation aborts (the simulator cannot be pickled by Pool.starmap
because of its _process_pool attribute, the preprocessing call is missing
its required sport_type argument for non-empty lineups, and
calculate_confidence_interval's validate_input decorator rejects the
positional confidence-level float) and the blanket handler rethrows
SimulationError 3011.  Both cache-bypassed calls below (force_refresh set,
so the facade skips its cache check; the second call runs against the
state the first one left behind) fail with SimulationError 3011 instead of
returning statistics to compare. -/
theorem determinism_code_bug :
    (simulate_lineup_performance emptyCache dbConst gConst 4 2 true true ["p1", "p2"] 8).1 =
      Except.error (AppError.simulationError 3011 "Failed to simulate lineup performance") ∧
    (simulate_lineup_performance
        (simulate_lineup_performance emptyCache dbConst gConst 4 2 true true ["p1", "p2"] 8).2
        dbConst gConst 4 2 true true ["p1", "p2"] 8).1 =
      Except.error (AppError.simulationError 3011 "Failed to simulate lineup performance") :=
  ⟨rfl, rfl⟩

/-- C6: the claim says the cache key is derived from the SORTED player-id
set (plus trial count and use case), so permuted player lists share one
cache entry.  Counterexample: the key the simulator itself derives and
looks up (monte_carlo.py line 109) joins the ids in caller order without
sorting, so the permuted lists a,b and b,a get different keys and the
second call cannot hit the entry written by the first. -/
theorem cache_key_counterexample :
    (["a", "b"] : List String).Perm ["b", "a"] ∧
    lineupCacheKey ["a", "b"] ≠ lineupCacheKey ["b", "a"] :=
  ⟨by decide, by decide⟩

/-- C6 amended: only the worker-level generate_cache_key
(simulation_tasks.py lines 24-29) sorts the stringified arguments before
hashing, so for it permuted player-id lists do produce equal keys, whatever
the digest function is (the trial count is not part of that key either);
the simulator's own internal cache key is order-dependent. -/
theorem cache_key_amended (hash : String → String) (l1 l2 : List String)
    (h : l1.Perm l2) :
    generate_cache_key hash "lineup" l1 = generate_cache_key hash "lineup" l2 := by
  unfold generate_cache_key
  have hsorted : l1.insertionSort (fun a b => a ≤ b) = l2.insertionSort (fun a b => a ≤ b) := by
    refine List.eq_of_perm_of_sorted ?_ (List.sorted_insertionSort _ l1)
      (List.sorted_insertionSort _ l2)
    exact ((List.perm_insertionSort _ l1).trans h).trans (List.perm_insertionSort _ l2).symm
  rw [hsorted]

/-- C6 amended witness: concrete permuted id lists produce the same
worker-level key. -/
theorem cache_key_amended_witness :
    (["b", "a"] : List String).Perm ["a", "b"] ∧
    generate_cache_key id "lineup" ["b", "a"] = generate_cache_key id "lineup" ["a", "b"] :=
  ⟨by decide, cache_key_amended id ["b", "a"] ["a", "b"] (by decide)⟩

/-- C7: the claim says a failing cache get or set is downgraded to a cache
miss and a fresh result is returned, with no cache-backend error ever
raised to the caller.  Counterexample: the cache get in
simulate_lineup_performance sits outside the try block, so when the backend
fails the IntegrationError raised by RedisService.get (after its retries)
escapes straight to the caller instead of being treated as a miss. -/
theorem cache_error_counterexample :
    (simulate_lineup_performance
        { store := fun _ => none, getFails := true, setFails := false }
        dbConst gConst 4 2 true false ["p1", "p2"] 8).1 =
      Except.error (AppError.integrationError "Redis get operation failed") := rfl

/-- C7 amended: whenever the cache backend's get fails (and the cache is
enabled and not bypassed), simulate_lineup_performance raises that
IntegrationError to its caller; no fresh result is computed and the failure
is not downgraded to a miss. -/
theorem cache_error_amended (c : CacheOps) (db : String → PlayerDist)
    (g : ℕ → ℚ) (w : ℕ) (z : ℝ) (ids : List String) (n : ℕ)
    (h : c.getFails = true) :
    (simulate_lineup_performance c db g w z true false ids n).1 =
      Except.error (AppError.integrationError "Redis get operation failed") := by
  simp [simulate_lineup_performance, h]

/-- C7 amended witness: the amended statement applied to a concrete failing
backend. -/
theorem cache_error_amended_witness :
    ({ store := fun _ => none, getFails := true, setFails := false } : CacheOps).getFails = true ∧
    (simulate_lineup_performance
        { store := fun _ => none, getFails := true, setFails := false }
        dbConst gConst 4 2 true false ["p1"] 16).1 =
      Except.error (AppError.integrationError "Redis get operation failed") :=
  ⟨rfl, cache_error_amended _ dbConst gConst 4 2 ["p1"] 16 rfl⟩

/-- C8: the claim (and the repository's own test, which expects
SimulationError 3014) says calculate_confidence_interval on an empty
outcomes array raises the empty-result-set SimulationError and never
returns a numeric or NaN interval.  The code has no emptiness check:
np.mean and np.std of an empty array return NaN with a warning, nothing in
the body raises, and the call (with the confidence level as a keyword
argument, the way the repository test invokes it) returns the NaN pair
normally. -/
theorem empty_interval_code_bug :
    calculate_confidence_interval none [] 2 = Except.ok (none, none) ∧
    ciValue [] 2 = (none, none) :=
  ⟨rfl, rfl⟩

/-- C10: the claim says a second identical call with force_refresh=false
returns the first call's expected_points with cached=true, while fresh
responses carry cached=false.  In the code every fresh computation aborts:
calculate_confidence_interval's validate_input decorator rejects the
positional confidence-level float, the blanket handler rethrows
SimulationError 3011, nothing is ever written to the cache, and so the
second identical call fails the same way instead of hitting a cached entry
(the repository's own test expects the fresh call to succeed and the
repeat call to return the cached result).  Both worker-task calls below
return SimulationError 3011 and no response marked cached=true ever
exists. -/
theorem cache_idempotence_code_bug :
    (simulate_lineup_task id emptyCache dbConst gConst 4 2 ["p1", "p2"] 8 false).1 =
      Except.error (AppError.simulationError 3011 "Failed to simulate lineup performance") ∧
    (simulate_lineup_task id
        (simulate_lineup_task id emptyCache dbConst gConst 4 2 ["p1", "p2"] 8 false).2
        dbConst gConst 4 2 ["p1", "p2"] 8 false).1 =
      Except.error (AppError.simulationError 3011 "Failed to simulate lineup performance") :=
  ⟨rfl, rfl⟩

/-- C2: for every nonempty outcome array the estimator can aggregate (and
every positive normal quantile z; the code's z = norm.ppf(0.975) is about
1.96), the result record assembled from it by simulate_lineup_performance
satisfies ci_lower ≤ expected_points ≤ ci_upper, and ci_lower < ci_upper
whenever its standard_deviation is positive: the margin z * std / sqrt(n)
is nonnegative, and strictly positive exactly when std is. -/
theorem interval_containment (l : List ℚ) (z : ℝ) (n : ℕ) (hl : l ≠ []) (hz : 0 < z) :
    ∃ mu s lo hi,
      (mkLineupResult l (ciValue l z).1 (ciValue l z).2 n).expected_points = some mu ∧
      (mkLineupResult l (ciValue l z).1 (ciValue l z).2 n).standard_deviation = some s ∧
      (mkLineupResult l (ciValue l z).1 (ciValue l z).2 n).ci_lower = some lo ∧
      (mkLineupResult l (ciValue l z).1 (ciValue l z).2 n).ci_upper = some hi ∧
      lo ≤ (mu : ℝ) ∧ (mu : ℝ) ≤ hi ∧ (0 < s → lo < hi) := by
  have hm := npMean_of_ne_nil l hl
  set mu := l.sum / (l.length : ℚ) with hmu
  have hv : 0 ≤ popVar l mu := popVar_nonneg l mu
  have hlen : 0 < ((l.length : ℕ) : ℝ) := by
    exact_mod_cast List.length_pos.mpr hl
  have hsl : 0 < Real.sqrt ((l.length : ℕ) : ℝ) := Real.sqrt_pos.mpr hlen
  have hse : 0 ≤ Real.sqrt (popVar l mu) / Real.sqrt ((l.length : ℕ) : ℝ) :=
    div_nonneg (Real.sqrt_nonneg _) hsl.le
  have hmarg : 0 ≤ z * (Real.sqrt (popVar l mu) / Real.sqrt ((l.length : ℕ) : ℝ)) :=
    mul_nonneg hz.le hse
  have hci : ciValue l z =
      (some ((mu : ℝ) - z * (Real.sqrt (popVar l mu) / Real.sqrt ((l.length : ℕ) : ℝ))),
       some ((mu : ℝ) + z * (Real.sqrt (popVar l mu) / Real.sqrt ((l.length : ℕ) : ℝ)))) := by
    simp [ciValue, hm]
  refine ⟨mu, Real.sqrt (popVar l mu), _, _,
    by simp [mkLineupResult, hm],
    by simp [mkLineupResult, npStd, hm],
    by rw [mkLineupResult, hci],
    by rw [mkLineupResult, hci],
    by linarith, by linarith, ?_⟩
  intro hs
  have : 0 < z * (Real.sqrt (popVar l mu) / Real.sqrt ((l.length : ℕ) : ℝ)) :=
    mul_pos hz (div_pos hs hsl)
  linarith

/-- C2 witness: the containment statement at the concrete outcome array
0, 2 with z = 2. -/
theorem interval_containment_witness :
    ([0, 2] : List ℚ) ≠ [] ∧ (0 : ℝ) < 2 ∧
    (∃ mu s lo hi,
      (mkLineupResult [0, 2] (ciValue [0, 2] 2).1 (ciValue [0, 2] 2).2 8).expected_points = some mu ∧
      (mkLineupResult [0, 2] (ciValue [0, 2] 2).1 (ciValue [0, 2] 2).2 8).standard_deviation = some s ∧
      (mkLineupResult [0, 2] (ciValue [0, 2] 2).1 (ciValue [0, 2] 2).2 8).ci_lower = some lo ∧
      (mkLineupResult [0, 2] (ciValue [0, 2] 2).1 (ciValue [0, 2] 2).2 8).ci_upper = some hi ∧
      lo ≤ (mu : ℝ) ∧ (mu : ℝ) ≤ hi ∧ (0 < s → lo < hi)) :=
  ⟨by simp, by norm_num, interval_containment [0, 2] 2 8 (by simp) (by norm_num)⟩

/-- C3: the claim says simulate_lineup_performance([], n) raises
ValidationError.  Counterexample at n = 1000 (fresh path, healthy empty
cache): the function has no empty-list validation at all; the empty lineup
flows into the simulation pipeline, whose failure is rethrown by the
blanket handler as SimulationError 3011 - a SimulationError, not a
ValidationError. -/
theorem empty_rejection_counterexample :
    (simulate_lineup_performance emptyCache dbConst gConst 4 2 true false [] 1000).1 =
      Except.error (AppError.simulationError 3011 "Failed to simulate lineup performance") ∧
    ¬ ∃ code msg,
      (simulate_lineup_performance emptyCache dbConst gConst 4 2 true false [] 1000).1 =
        Except.error (AppError.validationError code msg) := by
  refine ⟨rfl, ?_⟩
  rintro ⟨code, msg, h⟩
  rw [show (simulate_lineup_performance emptyCache dbConst gConst 4 2 true false [] 1000).1 =
      Except.error (AppError.simulationError 3011 "Failed to simulate lineup performance") from rfl] at h
  exact AppError.noConfusion (Except.error.inj h)

/-- C3 amended: on the empty player list (with the cache enabled, healthy
and missing the key), simulate_lineup_performance never raises
ValidationError; for every trial count it fails with the generic
SimulationError 3011 rethrown by its blanket exception handler. -/
theorem empty_rejection_amended (c : CacheOps) (db : String → PlayerDist)
    (g : ℕ → ℚ) (w : ℕ) (z : ℝ) (n : ℕ)
    (hget : c.getFails = false) (hmiss : c.store (lineupCacheKey []) = none) :
    (simulate_lineup_performance c db g w z true false [] n).1 =
      Except.error (AppError.simulationError 3011 "Failed to simulate lineup performance") := by
  simp [simulate_lineup_performance, hget, hmiss, calculate_confidence_interval]

/-- C3 amended witness: the amended statement at a concrete healthy empty
cache and trial count 64. -/
theorem empty_rejection_amended_witness :
    emptyCache.getFails = false ∧ emptyCache.store (lineupCacheKey []) = none ∧
    (simulate_lineup_performance emptyCache dbConst gConst 4 2 true false [] 64).1 =
      Except.error (AppError.simulationError 3011 "Failed to simulate lineup performance") :=
  ⟨rfl, rfl, empty_rejection_amended emptyCache dbConst gConst 4 2 64 rfl rfl⟩

/-- C4: the claim says the reported standard_deviation is the SAMPLE
standard deviation (divide by n - 1).  Counterexample at the outcome array
0, 2: the code's np.std (population, divide by n) gives 1, while the sample
standard deviation is sqrt 2, and the two differ. -/
theorem sample_std_counterexample :
    npStd [0, 2] = some 1 ∧
    sampleStdSpec [0, 2] = Real.sqrt 2 ∧
    (1 : ℝ) ≠ Real.sqrt 2 ∧
    (mkLineupResult [0, 2] none none 2).standard_deviation ≠ some (sampleStdSpec [0, 2]) := by
  have h1 : npStd [0, 2] = some 1 := by
    have hm : npMean [0, 2] = some 1 := by norm_num [npMean]
    have hv : popVar [0, 2] 1 = 1 := by norm_num [popVar]
    simp [npStd, hm, hv]
  have h2 : sampleStdSpec [0, 2] = Real.sqrt 2 := by
    have hm : npMean [0, 2] = some 1 := by norm_num [npMean]
    simp [sampleStdSpec, hm]
    norm_num
  have h3 : (1 : ℝ) ≠ Real.sqrt 2 := by
    have : (1 : ℝ) < Real.sqrt 2 := by
      rw [show (1 : ℝ) = Real.sqrt 1 from (Real.sqrt_one).symm]
      exact Real.sqrt_lt_sqrt (by norm_num) (by norm_num)
    exact this.ne
  refine ⟨h1, h2, h3, ?_⟩
  show npStd [0, 2] ≠ some (sampleStdSpec [0, 2])
  rw [h1, h2]
  simp
  exact h3

/-- C4 amended: the standard_deviation the result reports is np.std of the
outcomes, the POPULATION standard deviation: the square root of the sum of
squared deviations divided by n (so its square is exactly that quotient),
and it is exactly 0 when n = 1. -/
theorem population_std_amended (l : List ℚ) (mu : ℚ) (h : npMean l = some mu) :
    npStd l = some (Real.sqrt (popVar l mu)) ∧
    (Real.sqrt (popVar l mu)) ^ 2 = ((popVar l mu : ℚ) : ℝ) ∧
    (l.length = 1 → npStd l = some 0) := by
  refine ⟨by simp [npStd, h], ?_, ?_⟩
  · have hv : (0 : ℝ) ≤ ((popVar l mu : ℚ) : ℝ) := by
      exact_mod_cast popVar_nonneg l mu
    exact Real.sq_sqrt hv
  · intro hlen
    obtain ⟨x, rfl⟩ := List.length_eq_one.mp hlen
    have hx : npMean [x] = some x := by simp [npMean]
    have hmu : mu = x := by
      rw [hx] at h
      exact (Option.some.inj h).symm
    subst hmu
    have hv : popVar [mu] mu = 0 := by simp [popVar]
    simp [npStd, hx, hv]

/-- C4 amended witness: the population-standard-deviation statement at the
concrete outcome array 0, 2. -/
theorem population_std_amended_witness :
    npMean [0, 2] = some 1 ∧
    (npStd [0, 2] = some (Real.sqrt (popVar [0, 2] 1)) ∧
     (Real.sqrt (popVar [0, 2] 1)) ^ 2 = ((popVar [0, 2] 1 : ℚ) : ℝ) ∧
     (([0, 2] : List ℚ).length = 1 → npStd [0, 2] = some 0)) :=
  ⟨by norm_num [npMean], population_std_amended [0, 2] 1 (by norm_num [npMean])⟩

/-- C9: every per-player sample is clamped to max(0, sample) before the
per-trial sum, so every trial outcome in the combined array is nonnegative
for every generator stream, every player distribution list (means and
standard deviations unrestricted) and every chunking, and consequently any
aggregated expected_points (np.mean of the combined array) is nonnegative
as well. -/
theorem clamped_nonneg (g : ℕ → ℚ) (ps : List PlayerDist) (n w : ℕ) :
    (∀ x ∈ combinedResults g ps n w, 0 ≤ x) ∧
    (∀ mu, npMean (combinedResults g ps n w) = some mu → 0 ≤ mu) := by
  refine ⟨combinedResults_nonneg g ps n w, ?_⟩
  intro mu hmu
  unfold npMean at hmu
  by_cases hE : (combinedResults g ps n w).isEmpty
  · simp [hE] at hmu
  · simp [hE] at hmu
    subst hmu
    refine div_nonneg (List.sum_nonneg ?_) (by positivity)
    exact combinedResults_nonneg g ps n w

/-- C9 witness: a one-player lineup with mean 1 and std 5 under a stream
whose draws are all -1: each raw sample is -4, each clamped sample is 0,
both trial outcomes are 0 and so is the aggregated mean. -/
theorem clamped_nonneg_witness :
    (0 : ℚ) ∈ combinedResults gNeg psOne 2 2 ∧ (0 : ℚ) ≤ 0 ∧
    npMean (combinedResults gNeg psOne 2 2) = some 0 ∧ (0 : ℚ) ≤ 0 :=
  ⟨by simp [combinedResults, simulationChunks, simulate_single_lineup, trialScore,
      List.range_succ, List.enum, gNeg, psOne],
   (clamped_nonneg gNeg psOne 2 2).1 0
     (by simp [combinedResults, simulationChunks, simulate_single_lineup, trialScore,
       List.range_succ, List.enum, gNeg, psOne]),
   by simp [combinedResults, simulationChunks, simulate_single_lineup, trialScore,
      List.range_succ, List.enum, gNeg, psOne, npMean],
   (clamped_nonneg gNeg psOne 2 2).2 0
     (by simp [combinedResults, simulationChunks, simulate_single_lineup, trialScore,
       List.range_succ, List.enum, gNeg, psOne, npMean])⟩
